import Mathlib

/-!
Verification development for the NocoDB MCP server
(`src/unnamed/part_000`, class `NocoDBServer`).

The tool handlers of the server are shallowly embedded as pure Lean functions.
The HTTP client (`axiosInstance`) is modelled as a stub function from a
request descriptor to either a response body (the `response.data` JSON) or
an error message (the `error.message` string of a network failure or
non-2xx response).  Each handler returns both its outcome and the ordered
list of HTTP requests it issued (a request that fails is still counted as
issued).  A handler outcome is `Except String ToolResult`: `.error msg`
models the handler throwing `new Error(msg)`.
-/

namespace NocoDB

/-- JSON-compatible values (the argument bags, request bodies and response
bodies the server manipulates).  Numbers are modelled as integers: every
numeric value the handlers themselves produce or inspect (limits, offsets,
counts) is integral. -/
inductive Json where
  | null
  | bool (b : Bool)
  | num (n : Int)
  | str (s : String)
  | arr (xs : List Json)
  | obj (fields : List (String × Json))

/-- Property access `j.k`: defined on objects, `undefined` (here `none`)
otherwise. -/
def Json.get : Json → String → Option Json
  | .obj fs, k => fs.lookup k
  | _, _ => none

/-- JavaScript truthiness of a defined value. -/
def Json.truthy : Json → Bool
  | .null => false
  | .bool b => b
  | .num n => n != 0
  | .str s => s != ""
  | .arr _ => true
  | .obj _ => true

/-- JavaScript truthiness where `none` models `undefined`. -/
def truthyOpt : Option Json → Bool
  | none => false
  | some j => j.truthy

/-- The `.length` property: defined on arrays and strings, `undefined`
otherwise. -/
def jsLength : Json → Option Json
  | .arr xs => some (.num xs.length)
  | .str s => some (.num s.length)
  | _ => none

/-- Escaping of a character inside a JSON string literal, as
`JSON.stringify` performs it. -/
def jsonEscapeChar (c : Char) : String :=
  if c = '"' then "\\\""
  else if c = '\\' then "\\\\"
  else if c = '\n' then "\\n"
  else if c = '\t' then "\\t"
  else if c = '\r' then "\\r"
  else String.singleton c

def jsonEscape (s : String) : String :=
  String.join (s.toList.map jsonEscapeChar)

mutual

/-- Compact `JSON.stringify(v)` (single-argument form, used for the
`where` query parameter of `query_table`). -/
def Json.stringify : Json → String
  | .null => "null"
  | .bool b => cond b "true" "false"
  | .num n => toString n
  | .str s => "\"" ++ jsonEscape s ++ "\""
  | .arr xs => "[" ++ String.intercalate "," (stringifyList xs) ++ "]"
  | .obj fs => "\x7b" ++ String.intercalate "," (stringifyFields fs) ++ "\x7d"

def stringifyList : List Json → List String
  | [] => []
  | j :: js => Json.stringify j :: stringifyList js

def stringifyFields : List (String × Json) → List String
  | [] => []
  | (k, v) :: fs =>
    ("\"" ++ jsonEscape k ++ "\":" ++ Json.stringify v) :: stringifyFields fs

end

mutual

/-- Pretty `JSON.stringify(v, null, 2)` (two-space indent form, used in the
success texts of the handlers); `ind` is the indentation of the enclosing
line. -/
def Json.pretty (ind : String) : Json → String
  | .null => "null"
  | .bool b => cond b "true" "false"
  | .num n => toString n
  | .str s => "\"" ++ jsonEscape s ++ "\""
  | .arr [] => "[]"
  | .arr (x :: xs) =>
    "[\n" ++ String.intercalate ",\n" (prettyItems (ind ++ "  ") (x :: xs)) ++
      "\n" ++ ind ++ "]"
  | .obj [] => "\x7b\x7d"
  | .obj (f :: fs) =>
    "\x7b\n" ++ String.intercalate ",\n" (prettyFields (ind ++ "  ") (f :: fs)) ++
      "\n" ++ ind ++ "\x7d"

def prettyItems (ind : String) : List Json → List String
  | [] => []
  | x :: xs => (ind ++ Json.pretty ind x) :: prettyItems ind xs

def prettyFields (ind : String) : List (String × Json) → List String
  | [] => []
  | (k, v) :: fs =>
    (ind ++ "\"" ++ jsonEscape k ++ "\": " ++ Json.pretty ind v) :: prettyFields ind fs

end

mutual

/-- JavaScript string coercion of a defined value, as performed by template
literals: arrays join their elements with commas (null rendering empty),
plain objects render as `[object Object]`. -/
def Json.toJs : Json → String
  | .null => "null"
  | .bool b => cond b "true" "false"
  | .num n => toString n
  | .str s => s
  | .arr xs => String.intercalate "," (toJsItems xs)
  | .obj _ => "[object Object]"

def toJsItems : List Json → List String
  | [] => []
  | .null :: js => "" :: toJsItems js
  | j :: js => Json.toJs j :: toJsItems js

end

/-- Template-literal rendering of a possibly-`undefined` value
(`undefined` renders as the string `undefined`). -/
def showOpt : Option Json → String
  | none => "undefined"
  | some j => j.toJs

/-- Model of `Object.keys(v)`: throws a TypeError on `null` (and on `undefined`,
which cannot arise here since defaults replace it), lists the properties of
an object, the indices of an array or string, and is empty on the remaining
primitives. -/
def jsObjectKeys : Json → Except String (List String)
  | .null => .error "Cannot convert undefined or null to object"
  | .obj fs => .ok (fs.map Prod.fst)
  | .arr xs => .ok ((List.range xs.length).map toString)
  | .str s => .ok ((List.range s.length).map toString)
  | _ => .ok []

/-- The loosely-typed argument bag (`request.params.arguments`,
`comando.params`): the fields of a JSON object.  A key absent from the bag
models the JavaScript `undefined` obtained by destructuring. -/
abbrev Args := List (String × Json)

def getArg (args : Args) (k : String) : Option Json :=
  args.lookup k

/-- Template interpolation of a destructured argument into a path
(`${projectId}` renders `undefined` when the argument is absent). -/
def jsArg (args : Args) (k : String) : String :=
  showOpt (getArg args k)

/-- A body/property field whose value may be `undefined`: JSON
serialization drops `undefined` properties, so the field is omitted. -/
def optField (k : String) : Option Json → List (String × Json)
  | none => []
  | some v => [(k, v)]

inductive Method where
  | get
  | post
  | patch
  | delete
deriving DecidableEq

/-- One HTTP request issued through the `axiosInstance` (the fixed
`baseURL` and headers are configuration, identical on every request, and
therefore not repeated in the descriptor).  `params` are the query
parameters in the order axios serializes them (object insertion order,
with `undefined`-valued parameters omitted). -/
structure HttpRequest where
  method : Method
  path : String
  params : List (String × Json) := []
  body : Option Json := none

/-- A stub HTTP client: `.ok d` is a 2xx response with body `d`
(`response.data`), `.error m` a network failure or non-2xx response whose
axios error carries `message = m`. -/
abbrev Client := HttpRequest → Except String Json

/-- One `{ type: "text", text }` content block. -/
structure ContentBlock where
  text : String
deriving DecidableEq

/-- The result envelope a tool handler returns to the protocol layer. -/
structure ToolResult where
  content : List ContentBlock
  isError : Bool := false
deriving DecidableEq

/-- A handler outcome paired with the ordered trace of HTTP requests the
handler issued (failed requests included). -/
abbrev HandlerOutcome := Except String ToolResult × List HttpRequest

/-- Environment configuration read at start-up: `API_VERSION` (defaulted
to `"v2"`) and `NOCODB_BASE_ID` (possibly unset, i.e. `undefined`). -/
structure Config where
  apiVersion : String := "v2"
  baseId : Option String := none

/-- Handler `listProjects`: GET the project list, result text is the raw
pretty-printed JSON. -/
def listProjects (client : Client) : HandlerOutcome :=
  let req : HttpRequest := ⟨.get, "/api/v1/db/meta/projects", [], none⟩
  match client req with
  | .ok data => (.ok ⟨[⟨Json.pretty "" data⟩], false⟩, [req])
  | .error e => (.error ("Failed to list projects: " ++ e), [req])

/-- Handler `createProject`: POST `{title, description}` with `description`
defaulting to the empty string. -/
def createProject (client : Client) (args : Args) : HandlerOutcome :=
  let title := getArg args "title"
  let description := (getArg args "description").getD (.str "")
  let req : HttpRequest :=
    ⟨.post, "/api/v1/db/meta/projects", [],
      some (.obj (optField "title" title ++ [("description", description)]))⟩
  match client req with
  | .ok data =>
    (.ok ⟨[⟨"Project created successfully: " ++ Json.pretty "" data⟩], false⟩, [req])
  | .error e => (.error ("Failed to create project: " ++ e), [req])

/-- Handler `listTables`: GET the tables of a project. -/
def listTables (client : Client) (args : Args) : HandlerOutcome :=
  let projectId := jsArg args "projectId"
  let req : HttpRequest :=
    ⟨.get, "/api/v1/db/meta/projects/" ++ projectId ++ "/tables", [], none⟩
  match client req with
  | .ok data => (.ok ⟨[⟨Json.pretty "" data⟩], false⟩, [req])
  | .error e => (.error ("Failed to list tables: " ++ e), [req])

/-- The per-column POST issued by `createTable`: the spread
`...(column.is_primary ? { pk: true } : {})` adds `pk` exactly when
`is_primary` is truthy. -/
def columnAddRequest (tableId : String) (col : Json) : HttpRequest :=
  ⟨.post, "/api/v1/db/meta/tables/" ++ tableId ++ "/columns", [],
    some (.obj (optField "column_name" (col.get "column_name") ++
      optField "title" (col.get "column_name") ++
      optField "uidt" (col.get "column_type") ++
      (if truthyOpt (col.get "is_primary") then [("pk", .bool true)] else [])))⟩

/-- The `for (const column of columns)` loop of `createTable`: one POST
per column, stopping at the first failure (whose error propagates to the
catch of the handler). -/
def addColumns (client : Client) (tableId : String) :
    List Json → Except String Unit × List HttpRequest
  | [] => (.ok (), [])
  | col :: rest =>
    let req := columnAddRequest tableId col
    match client req with
    | .ok _ =>
      let (r, t) := addColumns client tableId rest
      (r, req :: t)
    | .error e => (.error e, [req])

/-- Handler `createTable`: POST the table create, read `data.id`, then POST one
column add per entry of `columns` in order.  A string `columns` value is
iterable in JavaScript: the `for...of` loop walks its characters, issuing
one column-add POST per character (whose property accesses all yield
`undefined`).  Any other non-array `columns` value (such as the
`undefined` of an omitted argument) makes the `for...of` loop throw a
TypeError, caught by the catch clause of the handler itself. -/
def createTable (client : Client) (args : Args) : HandlerOutcome :=
  let projectId := jsArg args "projectId"
  let tableName := jsArg args "tableName"
  let createReq : HttpRequest :=
    ⟨.post, "/api/v1/db/meta/projects/" ++ projectId ++ "/tables", [],
      some (.obj (optField "table_name" (getArg args "tableName")))⟩
  match client createReq with
  | .error e => (.error ("Failed to create table: " ++ e), [createReq])
  | .ok data =>
    let tableId := showOpt (data.get "id")
    match getArg args "columns" with
    | some (.arr cols) =>
      match addColumns client tableId cols with
      | (.ok _, t) =>
        (.ok ⟨[⟨"Table \x27" ++ tableName ++ "\x27 created successfully with " ++
          toString cols.length ++ " columns."⟩], false⟩, createReq :: t)
      | (.error e, t) => (.error ("Failed to create table: " ++ e), createReq :: t)
    | some (.str s) =>
      match addColumns client tableId (s.toList.map (fun ch => .str (String.singleton ch))) with
      | (.ok _, t) =>
        (.ok ⟨[⟨"Table \x27" ++ tableName ++ "\x27 created successfully with " ++
          toString s.length ++ " columns."⟩], false⟩, createReq :: t)
      | (.error e, t) => (.error ("Failed to create table: " ++ e), createReq :: t)
    | _ =>
      (.error ("Failed to create table: columns is not iterable"), [createReq])

/-- Handler `queryTable`: GET the records with `limit` (default 100), `offset`
(default 0) and, when the filter object is non-empty, `where` holding the
compact JSON serialization of the filters. -/
def queryTable (client : Client) (args : Args) : HandlerOutcome :=
  let projectId := jsArg args "projectId"
  let tableName := jsArg args "tableName"
  let filters := (getArg args "filters").getD (.obj [])
  let limit := (getArg args "limit").getD (.num 100)
  let offset := (getArg args "offset").getD (.num 0)
  match jsObjectKeys filters with
  | .error e => (.error ("Failed to query table: " ++ e), [])
  | .ok keys =>
    let queryParams := [("limit", limit), ("offset", offset)] ++
      (if keys.length > 0 then [("where", .str filters.stringify)] else [])
    let req : HttpRequest :=
      ⟨.get, "/api/v1/db/data/noco/" ++ projectId ++ "/" ++ tableName, queryParams, none⟩
    match client req with
    | .ok data => (.ok ⟨[⟨Json.pretty "" data⟩], false⟩, [req])
    | .error e => (.error ("Failed to query table: " ++ e), [req])

/-- Handler `insertRecord`: POST the record data (an omitted `data` argument posts
no body, as axios serializes `undefined` to an empty body). -/
def insertRecord (client : Client) (args : Args) : HandlerOutcome :=
  let req : HttpRequest :=
    ⟨.post, "/api/v1/db/data/noco/" ++ jsArg args "projectId" ++ "/" ++
      jsArg args "tableName", [], getArg args "data"⟩
  match client req with
  | .ok data =>
    (.ok ⟨[⟨"Record inserted successfully: " ++ Json.pretty "" data⟩], false⟩, [req])
  | .error e => (.error ("Failed to insert record: " ++ e), [req])

/-- Handler `updateRecord`: PATCH the record by id. -/
def updateRecord (client : Client) (args : Args) : HandlerOutcome :=
  let req : HttpRequest :=
    ⟨.patch, "/api/v1/db/data/noco/" ++ jsArg args "projectId" ++ "/" ++
      jsArg args "tableName" ++ "/" ++ jsArg args "recordId", [], getArg args "data"⟩
  match client req with
  | .ok data =>
    (.ok ⟨[⟨"Record updated successfully: " ++ Json.pretty "" data⟩], false⟩, [req])
  | .error e => (.error ("Failed to update record: " ++ e), [req])

/-- Handler `deleteRecord`: DELETE the record by id; the success text is a fixed
confirmation sentence, the response body is not consulted. -/
def deleteRecord (client : Client) (args : Args) : HandlerOutcome :=
  let req : HttpRequest :=
    ⟨.delete, "/api/v1/db/data/noco/" ++ jsArg args "projectId" ++ "/" ++
      jsArg args "tableName" ++ "/" ++ jsArg args "recordId", [], none⟩
  match client req with
  | .ok _ => (.ok ⟨[⟨"Record deleted successfully."⟩], false⟩, [req])
  | .error e => (.error ("Failed to delete record: " ++ e), [req])

/-- The primary `queryTableByName` request:
`GET /api/{API_VERSION}/tables/{tableName}/records` with `limit` and
`baseId` query parameters (an unset `NOCODB_BASE_ID` is an `undefined`
parameter, which axios omits). -/
def primaryRequest (cfg : Config) (args : Args) : HttpRequest :=
  ⟨.get, "/api/" ++ cfg.apiVersion ++ "/tables/" ++ jsArg args "tableName" ++ "/records",
    [("limit", (getArg args "limit").getD (.num 100))] ++
      (match cfg.baseId with
        | some b => [("baseId", .str b)]
        | none => []), none⟩

/-- The fallback `queryTableByName` request:
`GET /api/{API_VERSION}/bases/{NOCODB_BASE_ID}/tables/{tableName}/records`
with only `limit` (an unset base id interpolates as `undefined` in the
path). -/
def secondaryRequest (cfg : Config) (args : Args) : HttpRequest :=
  ⟨.get, "/api/" ++ cfg.apiVersion ++ "/bases/" ++ (cfg.baseId.getD "undefined") ++
    "/tables/" ++ jsArg args "tableName" ++ "/records",
    [("limit", (getArg args "limit").getD (.num 100))], none⟩

/-- Extraction of `recordCount`:
`response.data.list ? response.data.list.length : 0`. -/
def qtbnCount (data : Json) : Option Json :=
  if truthyOpt (data.get "list") then jsLength ((data.get "list").getD .null)
  else some (.num 0)

/-- Extraction of `totalCount`:
`response.data.pageInfo ? response.data.pageInfo.totalRows : recordCount`.
Note the condition tests `pageInfo`, not `totalRows`: a truthy `pageInfo`
without a `totalRows` property yields `undefined`. -/
def qtbnTotal (data : Json) : Option Json :=
  if truthyOpt (data.get "pageInfo") then ((data.get "pageInfo").getD .null).get "totalRows"
  else qtbnCount data

/-- The success text of `queryTableByName`. -/
def qtbnSummary (tableName : String) (data : Json) : String :=
  "Table " ++ tableName ++ " contains " ++ showOpt (qtbnTotal data) ++
    " total records. Retrieved " ++ showOpt (qtbnCount data) ++ " records."

/-- Handler `queryTableByName`: try the primary endpoint; on failure try the
fallback endpoint; on double failure throw an error concatenating both
messages. -/
def queryTableByName (cfg : Config) (client : Client) (args : Args) : HandlerOutcome :=
  let tableName := jsArg args "tableName"
  let p := primaryRequest cfg args
  match client p with
  | .ok data => (.ok ⟨[⟨qtbnSummary tableName data⟩], false⟩, [p])
  | .error e1 =>
    let s := secondaryRequest cfg args
    match client s with
    | .ok data => (.ok ⟨[⟨qtbnSummary tableName data⟩], false⟩, [p, s])
    | .error e2 =>
      (.error ("Failed to query table by name: " ++ e1 ++
        ". Alternative approach also failed: " ++ e2), [p, s])

/-- The protocol error codes the dispatch layer uses. -/
inductive ErrorCode where
  | methodNotFound
deriving DecidableEq

/-- An `McpError`: the one kind of exception the dispatch layer lets
propagate to the caller as a raw failure. -/
structure McpError where
  code : ErrorCode
  message : String
deriving DecidableEq

/-- The fixed nine-element operation set declared by the
`ListToolsRequestSchema` handler and routed by the dispatch switch. -/
def opNames : List String :=
  ["list_projects", "create_project", "list_tables", "create_table", "query_table",
    "insert_record", "update_record", "delete_record", "query_table_by_name"]

/-- The switch of the `CallToolRequestSchema` handler of
`setupToolHandlers`: `none` is the `default` arm (unknown tool). -/
def route (cfg : Config) (client : Client) (toolName : String) (args : Args) :
    Option HandlerOutcome :=
  match toolName with
  | "list_projects" => some (listProjects client)
  | "create_project" => some (createProject client args)
  | "list_tables" => some (listTables client args)
  | "create_table" => some (createTable client args)
  | "query_table" => some (queryTable client args)
  | "insert_record" => some (insertRecord client args)
  | "update_record" => some (updateRecord client args)
  | "delete_record" => some (deleteRecord client args)
  | "query_table_by_name" => some (queryTableByName cfg client args)
  | _ => none

/-- The `CallToolRequestSchema` handler of `setupToolHandlers` (the
dispatcher): route `toolName` through the switch; an unknown name throws
`McpError(MethodNotFound, ...)`, which the surrounding catch re-throws as
a raw failure, while any other exception (the plain `Error`s the handlers
throw) is converted into an error-flagged result whose text is the
message behind an `Error: ` marker. -/
def dispatch (cfg : Config) (client : Client) (toolName : String) (args : Args) :
    Except McpError ToolResult × List HttpRequest :=
  match route cfg client toolName args with
  | some (.ok r, t) => (.ok r, t)
  | some (.error msg, t) => (.ok ⟨[⟨"Error: " ++ msg⟩], true⟩, t)
  | none => (.error ⟨.methodNotFound, "Unknown tool: " ++ toolName⟩, [])

/-- Entry point `executeCommand`: the second dispatch entry point, routing on
`comando.action`.  Its switch covers only seven actions — `create_project`
and `create_table` are missing — and its catch merely logs and re-throws,
so handler errors and the unknown-command error surface unchanged. -/
def executeCommand (cfg : Config) (client : Client) (action : String) (params : Args) :
    HandlerOutcome :=
  match action with
  | "list_projects" => listProjects client
  | "list_tables" => listTables client params
  | "query_table" => queryTable client params
  | "insert_record" => insertRecord client params
  | "update_record" => updateRecord client params
  | "delete_record" => deleteRecord client params
  | "query_table_by_name" => queryTableByName cfg client params
  | _ => (.error ("Comando desconhecido: " ++ action), [])

/-- A stub client whose every request succeeds with body `d`. -/
def okClient (d : Json) : Client := fun _ => .ok d

/-- A stub client whose every request fails with message `m`. -/
def failClient (m : String) : Client := fun _ => .error m

/-- Predicate stating that `small` occurs inside `big` (as a contiguous substring, exhibited by a
decomposition). -/
def containsStr (big small : String) : Prop :=
  ∃ s₁ s₂, big = s₁ ++ small ++ s₂

/-- A name outside the nine-element operation set falls through to the
switch default. -/
theorem route_eq_none (cfg : Config) (client : Client) (args : Args) :
    ∀ name ∉ opNames, route cfg client name args = none := by
  intro name h
  unfold route
  split <;> simp_all [opNames]

/-- Claim C1 — The claim fails on the code: no handler validates required
arguments.  With the empty argument bag (omitting the required
`projectId`, `tableName` and `data`), `insert_record` does not fail at all
when the remote call succeeds, and one HTTP call is issued rather than
zero. -/
theorem c1_counterexample :
    (insertRecord (okClient (.obj [])) []).2.length = 1 ∧
      (insertRecord (okClient (.obj [])) []).1 =
        .ok ⟨[⟨"Record inserted successfully: \x7b\x7d"⟩], false⟩ :=
  ⟨rfl, rfl⟩

/-- Claim C1, amended — The handlers perform no required-argument validation
and never produce a `MissingArgument` error: dispatched with the empty
argument bag (omitting every required argument), each of the nine
operations still issues at least one HTTP request, interpolating the
string `undefined` where a missing path argument would appear (shown for
`list_tables`). -/
theorem c1_no_missing_argument_validation (cfg : Config) (d : Json) :
    (∀ name ∈ opNames, 1 ≤ (dispatch cfg (okClient d) name []).2.length) ∧
      (dispatch cfg (okClient d) "list_tables" []).2 =
        [⟨.get, "/api/v1/db/meta/projects/undefined/tables", [], none⟩] := by
  refine ⟨?_, rfl⟩
  intro name h
  simp only [opNames, List.mem_cons, List.not_mem_nil, or_false] at h
  rcases h with rfl | rfl | rfl | rfl | rfl | rfl | rfl | rfl | rfl <;>
    exact Nat.le_refl 1

theorem c1_no_missing_argument_validation_witness :
    "insert_record" ∈ opNames ∧
      1 ≤ (dispatch ⟨"v2", some "b1"⟩ (okClient (.obj [])) "insert_record" []).2.length :=
  ⟨by decide,
    (c1_no_missing_argument_validation ⟨"v2", some "b1"⟩ (.obj [])).1 "insert_record" (by decide)⟩

/-- Claim C7 — Dispatching any operation name outside the fixed nine-element
set fails with an `McpError(MethodNotFound)` carrying the offending name,
propagated to the caller as a raw failure (not an error-flagged envelope),
with no handler invoked and no HTTP request issued. -/
theorem c7_unknown_operation (cfg : Config) (client : Client) (name : String) (args : Args)
    (h : name ∉ opNames) :
    dispatch cfg client name args =
      (.error ⟨.methodNotFound, "Unknown tool: " ++ name⟩, []) := by
  unfold dispatch
  rw [route_eq_none cfg client args name h]

theorem c7_unknown_operation_witness :
    "frobnicate" ∉ opNames ∧
      dispatch ⟨"v2", some "b1"⟩ (okClient (.obj [])) "frobnicate" [] =
        (.error ⟨.methodNotFound, "Unknown tool: frobnicate"⟩, []) :=
  ⟨by decide,
    c7_unknown_operation ⟨"v2", some "b1"⟩ (okClient (.obj [])) "frobnicate" [] (by decide)⟩

/-- Claim C2 — The claim fails on the code: the total-count extraction
branches on the presence of `pageInfo`, not of `totalRows`.  With a
primary response whose `pageInfo` is present but lacks `totalRows` and
whose record list has length 1, the result text reports `undefined` total
records instead of the list length. -/
theorem c2_counterexample :
    (queryTableByName ⟨"v2", some "b1"⟩
        (okClient (.obj [("list", .arr [.obj []]), ("pageInfo", .obj [])]))
        [("tableName", .str "t")]).1 =
      .ok ⟨[⟨"Table t contains undefined total records. Retrieved 1 records."⟩], false⟩ ∧
      ("Table t contains undefined total records. Retrieved 1 records." ≠
        "Table t contains 1 total records. Retrieved 1 records.") :=
  ⟨rfl, by decide⟩

/-- Claim C2, amended — For `query_table_by_name`, whenever the primary
endpoint call succeeds, the result is a success summarizing the counts and
the secondary endpoint is never called; the reported total is
`pageInfo.totalRows` when the response carries a truthy `pageInfo` field
(rendering as `undefined` when `totalRows` is absent inside it), else the
length of the returned record list (0 if the list is absent). -/
theorem c2_primary_success_summary (cfg : Config) (client : Client) (args : Args) (d : Json)
    (h : client (primaryRequest cfg args) = .ok d) :
    queryTableByName cfg client args =
      (.ok ⟨[⟨"Table " ++ jsArg args "tableName" ++ " contains " ++ showOpt (qtbnTotal d) ++
        " total records. Retrieved " ++ showOpt (qtbnCount d) ++ " records."⟩], false⟩,
       [primaryRequest cfg args]) ∧
      (d.get "pageInfo" = none → qtbnTotal d = qtbnCount d) ∧
      (∀ pi, d.get "pageInfo" = some pi → pi.truthy = true → qtbnTotal d = pi.get "totalRows") ∧
      (d.get "list" = none → qtbnCount d = some (.num 0)) ∧
      (∀ xs, d.get "list" = some (.arr xs) → qtbnCount d = some (.num xs.length)) := by
  refine ⟨?_, ?_, ?_, ?_, ?_⟩
  · simp only [queryTableByName, qtbnSummary, h]
  · intro hp
    simp [qtbnTotal, truthyOpt, hp]
  · intro pi hp ht
    simp [qtbnTotal, truthyOpt, hp, ht]
  · intro hl
    simp [qtbnCount, truthyOpt, hl]
  · intro xs hl
    simp [qtbnCount, truthyOpt, hl, jsLength, Json.truthy]

theorem c2_primary_success_summary_witness :
    (okClient (.obj [("list", .arr [.obj []]), ("pageInfo", .obj [("totalRows", .num 42)])])
        (primaryRequest ⟨"v2", some "b1"⟩ [("tableName", .str "t")]) =
      .ok (.obj [("list", .arr [.obj []]), ("pageInfo", .obj [("totalRows", .num 42)])])) ∧
      queryTableByName ⟨"v2", some "b1"⟩
          (okClient (.obj [("list", .arr [.obj []]), ("pageInfo", .obj [("totalRows", .num 42)])]))
          [("tableName", .str "t")] =
        (.ok ⟨[⟨"Table t contains 42 total records. Retrieved 1 records."⟩], false⟩,
         [primaryRequest ⟨"v2", some "b1"⟩ [("tableName", .str "t")]]) :=
  ⟨rfl,
    (c2_primary_success_summary ⟨"v2", some "b1"⟩
      (okClient (.obj [("list", .arr [.obj []]), ("pageInfo", .obj [("totalRows", .num 42)])]))
      [("tableName", .str "t")]
      (.obj [("list", .arr [.obj []]), ("pageInfo", .obj [("totalRows", .num 42)])]) rfl).1⟩

/-- Claim C3 — When the primary and the secondary endpoint both fail, with
messages `a` and `b`, `query_table_by_name` throws a single error whose
message contains both, primary first, and both endpoints were called once
each, in order. -/
theorem c3_combined_failure_message (cfg : Config) (client : Client) (args : Args) (a b : String)
    (h1 : client (primaryRequest cfg args) = .error a)
    (h2 : client (secondaryRequest cfg args) = .error b) :
    queryTableByName cfg client args =
      (.error ("Failed to query table by name: " ++ a ++
        ". Alternative approach also failed: " ++ b),
       [primaryRequest cfg args, secondaryRequest cfg args]) ∧
      containsStr ("Failed to query table by name: " ++ a ++
        ". Alternative approach also failed: " ++ b) a ∧
      containsStr ("Failed to query table by name: " ++ a ++
        ". Alternative approach also failed: " ++ b)
        (a ++ ". Alternative approach also failed: " ++ b) := by
  refine ⟨?_, ⟨"Failed to query table by name: ",
      ". Alternative approach also failed: " ++ b, ?_⟩,
    ⟨"Failed to query table by name: ", "", ?_⟩⟩
  · simp only [queryTableByName, h1, h2]
  · simp [String.append_assoc]
  · simp [String.append_assoc, String.append_empty]

def c3client : Client := fun r =>
  if r.path = "/api/v2/tables/t/records" then .error "A" else .error "B"

theorem c3_combined_failure_message_witness :
    (c3client (primaryRequest ⟨"v2", some "b1"⟩ [("tableName", .str "t")]) = .error "A") ∧
      (c3client (secondaryRequest ⟨"v2", some "b1"⟩ [("tableName", .str "t")]) = .error "B") ∧
      (queryTableByName ⟨"v2", some "b1"⟩ c3client [("tableName", .str "t")]).1 =
        .error "Failed to query table by name: A. Alternative approach also failed: B" :=
  ⟨rfl, rfl,
    congrArg Prod.fst
      (c3_combined_failure_message ⟨"v2", some "b1"⟩ c3client [("tableName", .str "t")]
        "A" "B" rfl rfl).1⟩

/-- Claim C8 — When the primary endpoint fails and the secondary succeeds,
`query_table_by_name` produces a success result computed from the
secondary response by the same count extraction and summary as the
primary-success case (`qtbnSummary`), no error result, and both endpoints
were called once each, in order. -/
theorem c8_fallback_success (cfg : Config) (client : Client) (args : Args) (e : String) (d : Json)
    (h1 : client (primaryRequest cfg args) = .error e)
    (h2 : client (secondaryRequest cfg args) = .ok d) :
    queryTableByName cfg client args =
      (.ok ⟨[⟨qtbnSummary (jsArg args "tableName") d⟩], false⟩,
       [primaryRequest cfg args, secondaryRequest cfg args]) := by
  simp only [queryTableByName, h1, h2]

def c8client : Client := fun r =>
  if r.path = "/api/v2/tables/t/records" then .error "A"
  else .ok (.obj [("list", .arr [.obj [], .obj []]), ("pageInfo", .obj [("totalRows", .num 7)])])

theorem c8_fallback_success_witness :
    (c8client (primaryRequest ⟨"v2", some "b1"⟩ [("tableName", .str "t")]) = .error "A") ∧
      (c8client (secondaryRequest ⟨"v2", some "b1"⟩ [("tableName", .str "t")]) =
        .ok (.obj [("list", .arr [.obj [], .obj []]),
          ("pageInfo", .obj [("totalRows", .num 7)])])) ∧
      queryTableByName ⟨"v2", some "b1"⟩ c8client [("tableName", .str "t")] =
        (.ok ⟨[⟨"Table t contains 7 total records. Retrieved 2 records."⟩], false⟩,
         [primaryRequest ⟨"v2", some "b1"⟩ [("tableName", .str "t")],
          secondaryRequest ⟨"v2", some "b1"⟩ [("tableName", .str "t")]]) :=
  ⟨rfl, rfl,
    c8_fallback_success ⟨"v2", some "b1"⟩ c8client [("tableName", .str "t")] "A"
      (.obj [("list", .arr [.obj [], .obj []]), ("pageInfo", .obj [("totalRows", .num 7)])])
      rfl rfl⟩

/-- Claim C4 — The claim fails on the code: a remote-call failure is not
converted inside the handler itself.  `listProjects` re-throws it as
`Error("Failed to list projects: " + message)` — the outcome of the
handler is a thrown error, not an error-flagged result envelope (the
conversion happens in the catch of the dispatcher instead). -/
theorem c4_counterexample :
    (listProjects (failClient "boom")).1 = .error "Failed to list projects: boom" ∧
      (listProjects (failClient "boom")).2.length = 1 :=
  ⟨rfl, rfl⟩

/-- Claim C4, amended — A remote-call failure makes the handler re-throw an
`Error` carrying the message of the remote error; the catch of the
dispatcher (not the handler) converts any such non-`McpError` exception into an
error-flagged Operation Result whose text contains the remote message, so
the caller still receives a well-formed envelope for every operation, and
only dispatch-level `McpError`s (unknown operation) propagate as raw
failures. -/
theorem c4_remote_failure_envelope (cfg : Config) (m : String) :
    ∀ name ∈ opNames, ∃ t tr,
      dispatch cfg (failClient m) name [] = (.ok ⟨[⟨t⟩], true⟩, tr) ∧
        containsStr t m ∧ tr ≠ [] := by
  intro name h
  simp only [opNames, List.mem_cons, List.not_mem_nil, or_false] at h
  rcases h with rfl | rfl | rfl | rfl | rfl | rfl | rfl | rfl | rfl
  · refine ⟨_, _, rfl, ⟨"Error: " ++ "Failed to list projects: ", "", ?_⟩, by simp⟩
    simp [String.append_empty, ← String.append_assoc]
  · refine ⟨_, _, rfl, ⟨"Error: " ++ "Failed to create project: ", "", ?_⟩, by simp⟩
    simp [String.append_empty, ← String.append_assoc]
  · refine ⟨_, _, rfl, ⟨"Error: " ++ "Failed to list tables: ", "", ?_⟩, by simp⟩
    simp [String.append_empty, ← String.append_assoc]
  · refine ⟨_, _, rfl, ⟨"Error: " ++ "Failed to create table: ", "", ?_⟩, by simp⟩
    simp [String.append_empty, ← String.append_assoc]
  · refine ⟨_, _, rfl, ⟨"Error: " ++ "Failed to query table: ", "", ?_⟩, by simp⟩
    simp [String.append_empty, ← String.append_assoc]
  · refine ⟨_, _, rfl, ⟨"Error: " ++ "Failed to insert record: ", "", ?_⟩, by simp⟩
    simp [String.append_empty, ← String.append_assoc]
  · refine ⟨_, _, rfl, ⟨"Error: " ++ "Failed to update record: ", "", ?_⟩, by simp⟩
    simp [String.append_empty, ← String.append_assoc]
  · refine ⟨_, _, rfl, ⟨"Error: " ++ "Failed to delete record: ", "", ?_⟩, by simp⟩
    simp [String.append_empty, ← String.append_assoc]
  · refine ⟨_, _, rfl, ⟨"Error: " ++ "Failed to query table by name: ",
      ". Alternative approach also failed: " ++ m, ?_⟩, by simp⟩
    simp [String.append_empty, ← String.append_assoc]

theorem c4_remote_failure_envelope_witness :
    "list_projects" ∈ opNames ∧
      (∃ t tr,
        dispatch ⟨"v2", some "b1"⟩ (failClient "boom") "list_projects" [] =
          (.ok ⟨[⟨t⟩], true⟩, tr) ∧ containsStr t "boom" ∧ tr ≠ []) :=
  ⟨by decide,
    c4_remote_failure_envelope ⟨"v2", some "b1"⟩ "boom" "list_projects" (by decide)⟩

/-- The single GET request `query_table` issues once the filter object has
been inspected (`keys` is `Object.keys(filters)`). -/
theorem queryTable_trace (client : Client) (args : Args) (keys : List String)
    (hk : jsObjectKeys ((getArg args "filters").getD (.obj [])) = .ok keys) :
    (queryTable client args).2 =
      [⟨.get, "/api/v1/db/data/noco/" ++ jsArg args "projectId" ++ "/" ++ jsArg args "tableName",
        [("limit", (getArg args "limit").getD (.num 100)),
         ("offset", (getArg args "offset").getD (.num 0))] ++
          (if keys.length > 0 then
            [("where", .str (((getArg args "filters").getD (.obj [])).stringify))]
          else []), none⟩] := by
  unfold queryTable
  dsimp only
  rw [hk]
  dsimp only
  split <;> rfl

/-- Claim C5 — For `query_table`: with absent or empty `filters`, the single
GET request carries no `where` parameter; with a non-empty filter object,
`where` holds the compact JSON serialization of the filter object; `limit`
defaults to 100 and `offset` to 0 when absent. -/
theorem c5_query_table_where_param (client : Client) (args : Args) :
    ((getArg args "filters" = none ∨ getArg args "filters" = some (.obj [])) →
      ∃ req, (queryTable client args).2 = [req] ∧
        req.params.lookup "where" = none ∧
        (getArg args "limit" = none → req.params.lookup "limit" = some (.num 100)) ∧
        (getArg args "offset" = none → req.params.lookup "offset" = some (.num 0))) ∧
    (∀ f fs, getArg args "filters" = some (.obj (f :: fs)) →
      ∃ req, (queryTable client args).2 = [req] ∧
        req.params.lookup "where" = some (.str (Json.stringify (.obj (f :: fs)))) ∧
        (getArg args "limit" = none → req.params.lookup "limit" = some (.num 100)) ∧
        (getArg args "offset" = none → req.params.lookup "offset" = some (.num 0))) := by
  constructor
  · intro hf
    have hk : jsObjectKeys ((getArg args "filters").getD (.obj [])) = .ok [] := by
      rcases hf with hf | hf <;> (rw [hf]; rfl)
    refine ⟨_, queryTable_trace client args [] hk, rfl, ?_, ?_⟩
    · intro hl; rw [hl]; rfl
    · intro ho; rw [ho]; rfl
  · intro f fs hf
    have hk : jsObjectKeys ((getArg args "filters").getD (.obj [])) =
        .ok (f.1 :: fs.map Prod.fst) := by rw [hf]; rfl
    refine ⟨_, queryTable_trace client args (f.1 :: fs.map Prod.fst) hk, ?_, ?_, ?_⟩
    · rw [hf]; simp [List.lookup, Option.getD]
    · intro hl; rw [hl, hf]; simp [List.lookup, Option.getD]
    · intro ho; rw [ho, hf]; simp [List.lookup, Option.getD]

theorem c5_query_table_where_param_witness :
    (getArg [("projectId", .str "p"), ("tableName", .str "t"),
        ("filters", .obj [("Status", .str "open")])] "filters" =
      some (.obj [("Status", .str "open")])) ∧
      (∃ req,
        (queryTable (okClient .null)
          [("projectId", .str "p"), ("tableName", .str "t"),
           ("filters", .obj [("Status", .str "open")])]).2 = [req] ∧
        req.params.lookup "where" =
          some (.str (Json.stringify (.obj [("Status", .str "open")]))) ∧
        (getArg [("projectId", .str "p"), ("tableName", .str "t"),
            ("filters", .obj [("Status", .str "open")])] "limit" = none →
          req.params.lookup "limit" = some (.num 100)) ∧
        (getArg [("projectId", .str "p"), ("tableName", .str "t"),
            ("filters", .obj [("Status", .str "open")])] "offset" = none →
          req.params.lookup "offset" = some (.num 0))) :=
  ⟨rfl,
    (c5_query_table_where_param (okClient .null)
        [("projectId", .str "p"), ("tableName", .str "t"),
         ("filters", .obj [("Status", .str "open")])]).2
      ("Status", .str "open") [] rfl⟩

/-- A schema-conforming column definition for `create_table`: a name, a
type, and an optional boolean `is_primary`. -/
structure ColumnSpec where
  name : String
  ctype : String
  isPrimary : Option Bool

/-- The argument-bag JSON object a `ColumnSpec` denotes. -/
def mkColumn (c : ColumnSpec) : Json :=
  .obj ([("column_name", .str c.name), ("column_type", .str c.ctype)] ++
    (match c.isPrimary with
      | some b => [("is_primary", .bool b)]
      | none => []))

/-- The fields of the JSON object body of a request. -/
def bodyFields (r : HttpRequest) : List (String × Json) :=
  match r.body with
  | some (.obj fs) => fs
  | _ => []

theorem addColumns_okClient (d : Json) (tid : String) (cols : List Json) :
    addColumns (okClient d) tid cols = (.ok (), cols.map (columnAddRequest tid)) := by
  induction cols with
  | nil => rfl
  | cons c cs ih => simp [addColumns, okClient, ih]

/-- Claim C6 — the operation `create_table` with `N` schema-conforming column definitions
issues exactly `1 + N` HTTP calls — the table-create POST followed by one
column-add POST per column, in column-list order — and the add body of a
column
carries `pk: true` exactly when its `is_primary` is `true`, the flag being
absent otherwise. -/
theorem c6_create_table_calls (tid pid tn : String) (specs : List ColumnSpec) (c : ColumnSpec) :
    (createTable (okClient (.obj [("id", .str tid)]))
        [("projectId", .str pid), ("tableName", .str tn),
         ("columns", .arr (specs.map mkColumn))]).2 =
      ⟨.post, "/api/v1/db/meta/projects/" ++ pid ++ "/tables", [],
          some (.obj [("table_name", .str tn)])⟩ ::
        specs.map (fun s => columnAddRequest tid (mkColumn s)) ∧
      (createTable (okClient (.obj [("id", .str tid)]))
        [("projectId", .str pid), ("tableName", .str tn),
         ("columns", .arr (specs.map mkColumn))]).2.length = 1 + specs.length ∧
      (bodyFields (columnAddRequest tid (mkColumn c))).lookup "pk" =
        (if c.isPrimary = some true then some (.bool true) else none) := by
  have hcols : getArg [("projectId", Json.str pid), ("tableName", Json.str tn),
      ("columns", Json.arr (specs.map mkColumn))] "columns" =
      some (Json.arr (specs.map mkColumn)) := rfl
  have h1 : (createTable (okClient (.obj [("id", .str tid)]))
      [("projectId", .str pid), ("tableName", .str tn),
       ("columns", .arr (specs.map mkColumn))]).2 =
      ⟨.post, "/api/v1/db/meta/projects/" ++ pid ++ "/tables", [],
          some (.obj [("table_name", .str tn)])⟩ ::
        specs.map (fun s => columnAddRequest tid (mkColumn s)) := by
    simp only [createTable, okClient, hcols, addColumns_okClient, List.map_map]
    rfl
  refine ⟨h1, ?_, ?_⟩
  · rw [h1]
    simp [Nat.add_comm]
  · obtain ⟨nm, ct, ip⟩ := c
    cases ip with
    | none => rfl
    | some b => cases b <;> rfl

/-- Claim C9 — the operation `delete_record` with `projectId`, `tableName` and `recordId`
present, on remote success, issues exactly one DELETE call to the record
path and returns a success envelope whose text is the fixed confirmation
sentence, independent of the remote response body `d`. -/
theorem c9_delete_record (client : Client) (pid tn rid : String) (d : Json)
    (h : client ⟨.delete,
        "/api/v1/db/data/noco/" ++ pid ++ "/" ++ tn ++ "/" ++ rid, [], none⟩ = .ok d) :
    deleteRecord client
        [("projectId", .str pid), ("tableName", .str tn), ("recordId", .str rid)] =
      (.ok ⟨[⟨"Record deleted successfully."⟩], false⟩,
       [⟨.delete, "/api/v1/db/data/noco/" ++ pid ++ "/" ++ tn ++ "/" ++ rid, [], none⟩]) := by
  have e1 : jsArg [("projectId", Json.str pid), ("tableName", Json.str tn),
      ("recordId", Json.str rid)] "projectId" = pid := rfl
  have e2 : jsArg [("projectId", Json.str pid), ("tableName", Json.str tn),
      ("recordId", Json.str rid)] "tableName" = tn := rfl
  have e3 : jsArg [("projectId", Json.str pid), ("tableName", Json.str tn),
      ("recordId", Json.str rid)] "recordId" = rid := rfl
  simp only [deleteRecord, e1, e2, e3, h]

theorem c9_delete_record_witness :
    (okClient .null ⟨.delete,
        "/api/v1/db/data/noco/" ++ "p1" ++ "/" ++ "t1" ++ "/" ++ "r1", [], none⟩ =
      .ok .null) ∧
      deleteRecord (okClient .null)
          [("projectId", .str "p1"), ("tableName", .str "t1"), ("recordId", .str "r1")] =
        (.ok ⟨[⟨"Record deleted successfully."⟩], false⟩,
         [⟨.delete, "/api/v1/db/data/noco/" ++ "p1" ++ "/" ++ "t1" ++ "/" ++ "r1",
           [], none⟩]) :=
  ⟨rfl, c9_delete_record (okClient .null) "p1" "t1" "r1" .null rfl⟩

/-- Claim C10 — the entry point `executeCommand`, the second dispatch entry point, routes the
seven actions of its switch to the same handlers as the dispatcher, but
for `create_project` and `create_table` — both members of the fixed
nine-element operation set — it throws the unknown-command error naming
the action, invoking no handler and issuing no HTTP request. -/
theorem c10_execute_command_gaps (cfg : Config) (client : Client) (params : Args) :
    executeCommand cfg client "create_project" params =
        (.error "Comando desconhecido: create_project", []) ∧
      executeCommand cfg client "create_table" params =
        (.error "Comando desconhecido: create_table", []) ∧
      "create_project" ∈ opNames ∧ "create_table" ∈ opNames ∧
      executeCommand cfg client "list_projects" params = listProjects client ∧
      executeCommand cfg client "list_tables" params = listTables client params ∧
      executeCommand cfg client "query_table" params = queryTable client params ∧
      executeCommand cfg client "insert_record" params = insertRecord client params ∧
      executeCommand cfg client "update_record" params = updateRecord client params ∧
      executeCommand cfg client "delete_record" params = deleteRecord client params ∧
      executeCommand cfg client "query_table_by_name" params =
        queryTableByName cfg client params :=
  ⟨rfl, rfl, by decide, by decide, rfl, rfl, rfl, rfl, rfl, rfl, rfl⟩

end NocoDB
